import Mathlib

/-!
Shallow embedding of `graphGenerator/main.py` (a CSV-to-chart batch
utility) and verification of spec claims about it.

External effects (matplotlib calls, filesystem, stdout) are modelled by
explicit records of what the code would have done; exceptions from the
outside world (file missing, parse errors, savefig failure) are modelled
as explicit outcome parameters; unhandled Python exceptions are modelled
by `Except.error` carrying the exception description.
-/

/-- The single-quote character, used in the Python error f-strings. -/
def pyQuote : String := String.singleton (Char.ofNat 39)

/-- A scalar cell of a table: numeric or textual, as in a pandas column. -/
inductive Scalar where
  | num (n : Int)
  | str (s : String)
deriving DecidableEq, Repr

/-- A pandas DataFrame, modelled column-orientedly: named columns in order,
each an ordered list of scalars. -/
structure Table where
  cols : List (String × List Scalar)
deriving DecidableEq, Repr

/-- `df[name]`: select the (first) column with the given name, if present. -/
def Table.lookup (t : Table) (name : String) : Option (List Scalar) :=
  (t.cols.find? (fun c => decide (c.fst = name))).map (fun c => c.snd)

/-- `name in df.columns`. -/
def Table.hasCol (t : Table) (name : String) : Bool :=
  (t.lookup name).isSome

/-- One entry of the config's `graphs` list, with the keys `generate_graph`
and `main` read from it.  Required keys are plain fields, optional keys
(`x_label`, `y_label`, `figure_size`) are `Option`s. -/
structure ChartSpec where
  kind : String
  x_column : String
  y_columns : List String
  title : String
  x_label : Option String
  y_label : Option String
  figure_size : Option (List Scalar)
  output_file : String
deriving DecidableEq, Repr

/-- One matplotlib drawing call made inside the y-column loop. -/
inductive DrawCmd where
  | line (x y : List Scalar) (label : String)
  | plotMarker (x y : List Scalar) (label : String)
  | scatter (x y : List Scalar) (label : String)
  | bar (x y : List Scalar) (label : String)
deriving DecidableEq, Repr

/-- Record of everything one `generate_graph` call did to the outside
world: matplotlib state changes, stdout prints, filesystem writes. -/
structure RenderEffect where
  cleared : Bool
  newFigure : Option (List Scalar)
  draws : List DrawCmd
  warned : Option String
  aborted : Bool
  titleSet : Option String
  xlabelSet : Option String
  ylabelSet : Option String
  legendOn : Bool
  gridOn : Bool
  tightLayoutDone : Bool
  madeDir : Option String
  saveAttempted : Bool
  fileWritten : Bool
  saveErrorMsg : Option String
  closed : Bool
deriving DecidableEq, Repr

/-- `os.path.dirname`: the prefix up to and including the final path
separator, with trailing separators then stripped unless the prefix is
nothing but separators; empty when the path has no separator. -/
def dirname (p : String) : String :=
  let head := (p.data.reverse.dropWhile (fun c => ¬(c = Char.ofNat 47))).reverse
  if head.all (fun c => c = Char.ofNat 47) then String.mk head
  else String.mk (head.reverse.dropWhile (fun c => c = Char.ofNat 47)).reverse

/-- The dispatch on `kind` for one y-column: `none` means the kind is
unsupported (the `else` branch). -/
def drawSeries (kind : String) (x y : List Scalar) (label : String) :
    Option DrawCmd :=
  if kind = "line" then some (DrawCmd.line x y label)
  else if kind = "plot" then some (DrawCmd.plotMarker x y label)
  else if kind = "scatter" then some (DrawCmd.scatter x y label)
  else if kind = "bar" then some (DrawCmd.bar x y label)
  else none

/-- Outcome of the `for y_column in graph_config[..]` loop: either every
column was drawn, or drawing was aborted by the unsupported-kind
`return` after some draws. -/
inductive LoopOut where
  | done (draws : List DrawCmd)
  | abortedAt (draws : List DrawCmd) (kind : String)
deriving DecidableEq, Repr

/-- The y-column loop of `generate_graph`.  Each iteration first selects
the column (`df[y_column]`, a `KeyError` if absent — `Except.error`),
then dispatches on `kind`. -/
def drawLoop (df : Table) (kind : String) (x : List Scalar) :
    List String → Except String LoopOut
  | [] => Except.ok (LoopOut.done [])
  | yc :: rest =>
    match df.lookup yc with
    | none => Except.error ("KeyError: " ++ pyQuote ++ yc ++ pyQuote)
    | some y =>
      match drawSeries kind x y yc with
      | none => Except.ok (LoopOut.abortedAt [] kind)
      | some cmd =>
        match drawLoop df kind x rest with
        | Except.error e => Except.error e
        | Except.ok (LoopOut.done ds) => Except.ok (LoopOut.done (cmd :: ds))
        | Except.ok (LoopOut.abortedAt ds k) =>
          Except.ok (LoopOut.abortedAt (cmd :: ds) k)

/-- `generate_graph(df, graph_config)`.  `saveRes` is the outcome of the
(externally fallible) `plt.savefig` call: `none` = success, `some e` =
the exception it raised, which the code catches and prints.  A missing
column raises `KeyError`, modelled as `Except.error` (uncaught, so it
propagates to the caller). -/
def generate_graph (df : Table) (g : ChartSpec) (saveRes : Option String) :
    Except String RenderEffect :=
  match df.lookup g.x_column with
  | none => Except.error ("KeyError: " ++ pyQuote ++ g.x_column ++ pyQuote)
  | some x =>
    match drawLoop df g.kind x g.y_columns with
    | Except.error e => Except.error e
    | Except.ok (LoopOut.abortedAt ds k) =>
      Except.ok
        { cleared := true
          newFigure := g.figure_size
          draws := ds
          warned := some ("[WARNING] Unsupported graph type: " ++ k)
          aborted := true
          titleSet := none
          xlabelSet := none
          ylabelSet := none
          legendOn := false
          gridOn := false
          tightLayoutDone := false
          madeDir := none
          saveAttempted := false
          fileWritten := false
          saveErrorMsg := none
          closed := false }
    | Except.ok (LoopOut.done ds) =>
      Except.ok
        { cleared := true
          newFigure := g.figure_size
          draws := ds
          warned := none
          aborted := false
          titleSet := some g.title
          xlabelSet := some (g.x_label.getD g.x_column)
          ylabelSet :=
            some (g.y_label.getD (String.intercalate ", " g.y_columns))
          legendOn := true
          gridOn := true
          tightLayoutDone := true
          madeDir :=
            if dirname g.output_file = "" then none
            else some (dirname g.output_file)
          saveAttempted := true
          fileWritten := saveRes.isNone
          saveErrorMsg :=
            saveRes.map
              (fun e => "Error saving graph to " ++ g.output_file ++ ": " ++ e)
          closed := true }

/-- The parsed YAML config document, restricted to the shape `main`
inspects: an empty document parses to `None` (`null`); otherwise a
mapping that may or may not carry the `graphs` key. -/
inductive ConfigDoc where
  | null
  | mapping (graphs : Option (List ChartSpec))
deriving DecidableEq, Repr

/-- `config['graphs']`: raises `TypeError` on `None`, `KeyError` when the
key is absent. -/
def ConfigDoc.subscriptGraphs : ConfigDoc → Except String (List ChartSpec)
  | ConfigDoc.null =>
    Except.error "TypeError: NoneType object is not subscriptable"
  | ConfigDoc.mapping none => Except.error "KeyError: graphs"
  | ConfigDoc.mapping (some gs) => Except.ok gs

/-- Outcome of opening and `yaml.safe_load`-ing the config file, the two
exceptions `load_config` catches, or the parsed document. -/
inductive YamlOutcome where
  | notFound
  | yamlError (e : String)
  | parsed (doc : ConfigDoc)
deriving DecidableEq, Repr

/-- `load_config(config_path)`.  `Except.error msg` models printing `msg`
followed by `sys.exit(1)`. -/
def load_config (config_path : String) (outcome : YamlOutcome) :
    Except String ConfigDoc :=
  match outcome with
  | YamlOutcome.parsed d => Except.ok d
  | YamlOutcome.notFound =>
    Except.error
      ("Error: Config file " ++ pyQuote ++ config_path ++ pyQuote ++
        " not found!")
  | YamlOutcome.yamlError e =>
    Except.error ("Error parsing config file: " ++ e)

/-- Outcome of `pd.read_csv`: the three exception classes `load_dataframe`
distinguishes, or the parsed table. -/
inductive CsvOutcome where
  | notFound
  | emptyData
  | otherError (e : String)
  | parsed (t : Table)
deriving DecidableEq, Repr

/-- `load_dataframe(file_path)`.  `Except.error msg` models printing `msg`
followed by `sys.exit(1)`. -/
def load_dataframe (file_path : String) (outcome : CsvOutcome) :
    Except String Table :=
  match outcome with
  | CsvOutcome.parsed t => Except.ok t
  | CsvOutcome.notFound =>
    Except.error
      ("Error: Data file " ++ pyQuote ++ file_path ++ pyQuote ++
        " not found!")
  | CsvOutcome.emptyData =>
    Except.error
      ("Error: Data file " ++ pyQuote ++ file_path ++ pyQuote ++
        " is empty!")
  | CsvOutcome.otherError e =>
    Except.error
      ("Error reading data file " ++ pyQuote ++ file_path ++ pyQuote ++
        ": " ++ e)

/-- The external world a run interacts with: the config-file outcome, the
CSV outcome per path, and the `plt.savefig` outcome per output path
(`none` = save succeeds). -/
structure Env where
  configOutcome : YamlOutcome
  csv : String → CsvOutcome
  saveResult : String → Option String

/-- One completed `generate_graph` invocation made by `main`: the table
passed, the spec passed, and the recorded effects. -/
structure CallRecord where
  df : Table
  spec : ChartSpec
  effect : RenderEffect
deriving DecidableEq, Repr

/-- A `for graph in ...: generate_graph(df, graph)` loop over the given
specs.  Returns the completed call records and, if some call raised an
uncaught exception, its description (later specs are then not reached). -/
def renderAll (save : String → Option String) (df : Table) :
    List ChartSpec → List CallRecord × Option String
  | [] => ([], none)
  | g :: rest =>
    match generate_graph df g (save g.output_file) with
    | Except.error e => ([], some e)
    | Except.ok eff =>
      match renderAll save df rest with
      | (calls, err) => (⟨df, g, eff⟩ :: calls, err)

/-- How one whole run ends: normal completion (exit status 0), a
`sys.exit(1)` from a loader with its printed message (exit status 1), or
an unhandled Python exception.  Each constructor carries the
`generate_graph` calls completed before that point. -/
inductive RunResult where
  | completed (calls : List CallRecord)
  | fatalExit (msg : String) (calls : List CallRecord)
  | crashed (err : String) (calls : List CallRecord)
deriving DecidableEq, Repr

/-- The `generate_graph` invocations a run completed. -/
def RunResult.calls : RunResult → List CallRecord
  | RunResult.completed cs => cs
  | RunResult.fatalExit _ cs => cs
  | RunResult.crashed _ cs => cs

/-- The process exit status: `some 0` for normal completion, `some 1` for
the explicit `sys.exit(1)` paths, `none` for an unhandled exception
(whose status the source never sets). -/
def RunResult.exitStatus : RunResult → Option Nat
  | RunResult.completed _ => some 0
  | RunResult.fatalExit _ _ => some 1
  | RunResult.crashed _ _ => none

/-- `main()`, after argument parsing: `input` is `args.input`
(`none` when `--input` was not given), `config_path` is `args.config`. -/
def main_run (input : Option String) (config_path : String) (env : Env) :
    RunResult :=
  match load_config config_path env.configOutcome with
  | Except.error msg => RunResult.fatalExit msg []
  | Except.ok config =>
    match input with
    | some inputPath =>
      match load_dataframe inputPath (env.csv inputPath) with
      | Except.error msg => RunResult.fatalExit msg []
      | Except.ok df =>
        match config.subscriptGraphs with
        | Except.error e => RunResult.crashed e []
        | Except.ok gs =>
          match renderAll env.saveResult df (gs.filter (fun g => df.hasCol g.x_column)) with
          | (calls, some e) => RunResult.crashed e calls
          | (calls, none) => RunResult.completed calls
    | none =>
      match load_dataframe "data/examples.csv" (env.csv "data/examples.csv") with
      | Except.error msg => RunResult.fatalExit msg []
      | Except.ok df_examples =>
        match config.subscriptGraphs with
        | Except.error e => RunResult.crashed e []
        | Except.ok gs =>
          match renderAll env.saveResult df_examples
              (gs.filter (fun g => df_examples.hasCol g.x_column)) with
          | (calls1, some e) => RunResult.crashed e calls1
          | (calls1, none) =>
            match load_dataframe "data/fibonacci.csv"
                (env.csv "data/fibonacci.csv") with
            | Except.error msg => RunResult.fatalExit msg calls1
            | Except.ok df_fibonacci =>
              match config.subscriptGraphs with
              | Except.error e => RunResult.crashed e calls1
              | Except.ok gs2 =>
                match renderAll env.saveResult df_fibonacci
                    (gs2.filter (fun g => df_fibonacci.hasCol g.x_column)) with
                | (calls2, some e) => RunResult.crashed e (calls1 ++ calls2)
                | (calls2, none) => RunResult.completed (calls1 ++ calls2)

/-- Number of occurrences of one spec in a list of specs. -/
def specCount (s : ChartSpec) (l : List ChartSpec) : Nat :=
  l.countP (fun g => decide (g = s))

/-- Concrete table with columns `a` and `b` (one data row each pair). -/
def tAB : Table :=
  ⟨[("a", [Scalar.num 1, Scalar.num 2]), ("b", [Scalar.num 3, Scalar.num 4])]⟩

/-- Concrete table with the single column `a`. -/
def tA : Table := ⟨[("a", [Scalar.num 1])]⟩

/-- A line chart over `x_column = a`, `y_columns = [b]`. -/
def specLineA : ChartSpec :=
  { kind := "line", x_column := "a", y_columns := ["b"], title := "T",
    x_label := none, y_label := none, figure_size := none,
    output_file := "out/x.png" }

/-- An unsupported-kind chart over `x_column = a`, `y_columns = [b]`. -/
def specPie : ChartSpec :=
  { kind := "pie", x_column := "a", y_columns := ["b"], title := "T",
    x_label := none, y_label := none, figure_size := none,
    output_file := "out/x.png" }

/-- Environment whose config holds exactly `specLineA` and whose two
default datasets both parse to `tAB` (so column `a` is in both). -/
def envBothHaveA : Env :=
  { configOutcome := YamlOutcome.parsed (ConfigDoc.mapping (some [specLineA]))
    csv := fun _ => CsvOutcome.parsed tAB
    saveResult := fun _ => none }

/-- Environment whose config holds exactly `specLineA` but whose datasets
only have column `a`: the x-column check passes, the y-column lookup
cannot. -/
def envMissingY : Env :=
  { configOutcome := YamlOutcome.parsed (ConfigDoc.mapping (some [specLineA]))
    csv := fun _ => CsvOutcome.parsed tA
    saveResult := fun _ => none }

/-- Environment whose config file parses to the empty document (`None`)
and whose datasets all parse to `tAB`. -/
def envNullConfig : Env :=
  { configOutcome := YamlOutcome.parsed ConfigDoc.null
    csv := fun _ => CsvOutcome.parsed tAB
    saveResult := fun _ => none }

/-- Replace only the savefig outcomes of an environment. -/
def Env.withSave (env : Env) (f : String → Option String) : Env :=
  { env with saveResult := f }

/-- Whether a config-file outcome is one of the two exceptions
`load_config` catches and turns into `sys.exit(1)`. -/
def YamlOutcome.failed : YamlOutcome → Bool
  | YamlOutcome.parsed _ => false
  | _ => true

/-- Whether a CSV outcome is one of the three exceptions
`load_dataframe` catches and turns into `sys.exit(1)`. -/
def CsvOutcome.failed : CsvOutcome → Bool
  | CsvOutcome.parsed _ => false
  | _ => true

/-- Whether some load step of the run fails: the config load, or the load
of the dataset(s) the chosen mode reads. -/
def loadFailure (input : Option String) (env : Env) : Bool :=
  env.configOutcome.failed ||
    (match input with
     | some p => (env.csv p).failed
     | none =>
       (env.csv "data/examples.csv").failed ||
         (env.csv "data/fibonacci.csv").failed)

/-- The uncaught exception, if any, of a `generate_graph` result. -/
def renderErr : Except String RenderEffect → Option String
  | Except.error e => some e
  | Except.ok _ => none

/-- Whether `generate_graph` raises is decided by the column lookups
alone, never by the savefig outcome. -/
theorem generate_graph_renderErr (df : Table) (g : ChartSpec)
    (s1 s2 : Option String) :
    renderErr (generate_graph df g s1) = renderErr (generate_graph df g s2) := by
  cases hx : df.lookup g.x_column with
  | none => simp [generate_graph, hx, renderErr]
  | some x =>
    cases hd : drawLoop df g.kind x g.y_columns with
    | error e => simp [generate_graph, hx, hd, renderErr]
    | ok lo =>
      cases lo with
      | done ds => simp [generate_graph, hx, hd, renderErr]
      | abortedAt ds k => simp [generate_graph, hx, hd, renderErr]

/-- The crash component of a render loop does not depend on the savefig
outcomes. -/
theorem renderAll_snd_save (f1 f2 : String → Option String) (df : Table)
    (l : List ChartSpec) : (renderAll f1 df l).2 = (renderAll f2 df l).2 := by
  induction l with
  | nil => rfl
  | cons g rest ih =>
    have h := generate_graph_renderErr df g (f1 g.output_file) (f2 g.output_file)
    simp only [renderAll]
    cases h1 : generate_graph df g (f1 g.output_file) with
    | error e =>
      cases h2 : generate_graph df g (f2 g.output_file) with
      | error e2 =>
        rw [h1, h2] at h
        simp only [renderErr] at h
        simp [h]
      | ok eff2 =>
        rw [h1, h2] at h
        simp [renderErr] at h
    | ok eff =>
      cases h2 : generate_graph df g (f2 g.output_file) with
      | error e2 =>
        rw [h1, h2] at h
        simp [renderErr] at h
      | ok eff2 =>
        cases hr1 : renderAll f1 df rest with
        | mk c1 e1 =>
          cases hr2 : renderAll f2 df rest with
          | mk c2 e2 =>
            rw [hr1, hr2] at ih
            simpa using ih

/-- When no call of a render loop raises, the specs passed to
`generate_graph`, in order, are exactly the input list. -/
theorem renderAll_fst_specs (save : String → Option String) (df : Table)
    (l : List ChartSpec) (h : (renderAll save df l).2 = none) :
    (renderAll save df l).1.map CallRecord.spec = l := by
  induction l with
  | nil => rfl
  | cons g rest ih =>
    simp only [renderAll] at h ⊢
    cases h1 : generate_graph df g (save g.output_file) with
    | error e =>
      rw [h1] at h
      simp at h
    | ok eff =>
      rw [h1] at h
      simp only at h ⊢
      simp only [List.map_cons]
      rw [ih h]

/-- Every completed call of a render loop used the given table and a spec
from the input list. -/
theorem renderAll_fst_mem (save : String → Option String) (df : Table)
    (l : List ChartSpec) (cr : CallRecord)
    (h : cr ∈ (renderAll save df l).1) : cr.df = df ∧ cr.spec ∈ l := by
  induction l with
  | nil => simp [renderAll] at h
  | cons g rest ih =>
    simp only [renderAll] at h
    cases h1 : generate_graph df g (save g.output_file) with
    | error e =>
      rw [h1] at h
      simp at h
    | ok eff =>
      rw [h1] at h
      simp only [List.mem_cons] at h
      rcases h with h | h
      · subst h
        exact ⟨rfl, List.mem_cons_self _ _⟩
      · rcases ih h with ⟨hdf, hmem⟩
        exact ⟨hdf, List.mem_cons_of_mem _ hmem⟩

/-- Counting one spec through a filter: all its occurrences survive when
it satisfies the predicate, none otherwise. -/
theorem specCount_filter (s : ChartSpec) (p : ChartSpec → Bool)
    (l : List ChartSpec) :
    specCount s (l.filter p) = if p s = true then specCount s l else 0 := by
  induction l with
  | nil => simp [specCount]
  | cons g rest ih =>
    simp only [specCount] at ih ⊢
    by_cases hp : p g = true
    · by_cases hg : g = s
      · subst hg
        simp [List.filter_cons, List.countP_cons, hp, ih]
      · simp [List.filter_cons, List.countP_cons, hp, hg, ih]
    · by_cases hg : g = s
      · subst hg
        simp [List.filter_cons, List.countP_cons, hp, ih]
      · simp [List.filter_cons, List.countP_cons, hp, hg, ih]

/-- The effect record `generate_graph` produces when it aborts `specPie`
on its unsupported kind. -/
def effAbortPie : RenderEffect :=
  { cleared := true, newFigure := none, draws := [],
    warned := some "[WARNING] Unsupported graph type: pie", aborted := true,
    titleSet := none, xlabelSet := none, ylabelSet := none, legendOn := false,
    gridOn := false, tightLayoutDone := false, madeDir := none,
    saveAttempted := false, fileWritten := false, saveErrorMsg := none,
    closed := false }

/-- C3 counterexample: with kind `pie` (unsupported) and a non-empty
`y_columns`, `generate_graph` exits without releasing the drawing
surface: the early `return` skips the `finally: plt.close()`, so the
surface is not released on this exit path. -/
theorem c3_counterexample :
    generate_graph tAB specPie none = Except.ok effAbortPie ∧
    effAbortPie.aborted = true ∧ effAbortPie.closed = false :=
  ⟨rfl, rfl, rfl⟩

/-- C3 (amended): the drawing surface is released exactly on the runs
that reach the save step — on both success and failure of the save — but
not when the chart is aborted for an unsupported kind. -/
theorem c3_surface_released_iff_not_aborted (df : Table) (g : ChartSpec)
    (sr : Option String) (eff : RenderEffect)
    (h : generate_graph df g sr = Except.ok eff) :
    eff.closed = !eff.aborted := by
  cases hx : df.lookup g.x_column with
  | none => simp [generate_graph, hx] at h
  | some x =>
    cases hd : drawLoop df g.kind x g.y_columns with
    | error e => simp [generate_graph, hx, hd] at h
    | ok lo =>
      cases lo with
      | done ds =>
        simp only [generate_graph, hx, hd, Except.ok.injEq] at h
        subst h
        rfl
      | abortedAt ds k =>
        simp only [generate_graph, hx, hd, Except.ok.injEq] at h
        subst h
        rfl

/-- C3 witness: the released-iff-not-aborted equation holds at the
concrete aborted invocation. -/
theorem c3_witness : effAbortPie.closed = !effAbortPie.aborted :=
  c3_surface_released_iff_not_aborted tAB specPie none effAbortPie rfl

/-- C4: for a valid spec (non-empty `y_columns`, all named columns
present) whose kind is none of line/plot/scatter/bar, `generate_graph`
returns normally (no exception), prints exactly the unsupported-kind
warning, draws no series, and never reaches the save step, so no file is
written. -/
theorem c4_unsupported_kind_aborts (df : Table) (g : ChartSpec)
    (sr : Option String) (y : String) (rest : List String)
    (hys : g.y_columns = y :: rest)
    (hall : ∀ c ∈ g.y_columns, df.hasCol c = true)
    (hx : df.hasCol g.x_column = true)
    (hk1 : g.kind ≠ "line") (hk2 : g.kind ≠ "plot")
    (hk3 : g.kind ≠ "scatter") (hk4 : g.kind ≠ "bar") :
    (generate_graph df g sr).toOption.map RenderEffect.warned =
      some (some ("[WARNING] Unsupported graph type: " ++ g.kind)) ∧
    (generate_graph df g sr).toOption.map RenderEffect.fileWritten =
      some false ∧
    (generate_graph df g sr).toOption.map RenderEffect.saveAttempted =
      some false ∧
    (generate_graph df g sr).toOption.map RenderEffect.draws = some [] ∧
    (generate_graph df g sr).toOption.map RenderEffect.aborted = some true := by
  have hxs : ∃ x, df.lookup g.x_column = some x := by
    cases hcc : df.lookup g.x_column
    · rw [Table.hasCol, hcc] at hx
      simp at hx
    · exact ⟨_, rfl⟩
  rcases hxs with ⟨x, hxx⟩
  have hyv : ∃ yv, df.lookup y = some yv := by
    have hm := hall y (by rw [hys]; exact List.mem_cons_self _ _)
    cases hcc : df.lookup y
    · rw [Table.hasCol, hcc] at hm
      simp at hm
    · exact ⟨_, rfl⟩
  rcases hyv with ⟨yv, hyy⟩
  have hds : drawSeries g.kind x yv y = none := by
    simp [drawSeries, hk1, hk2, hk3, hk4]
  have hloop : drawLoop df g.kind x g.y_columns =
      Except.ok (LoopOut.abortedAt [] g.kind) := by
    rw [hys]
    simp [drawLoop, hyy, hds]
  refine ⟨?_, ?_, ?_, ?_, ?_⟩ <;>
    simp [generate_graph, hxx, hloop, Except.toOption]

/-- C4 witness: the unsupported-kind contract at the concrete spec
`specPie` over `tAB`. -/
theorem c4_witness :
    (generate_graph tAB specPie none).toOption.map RenderEffect.warned =
      some (some ("[WARNING] Unsupported graph type: " ++ specPie.kind)) ∧
    (generate_graph tAB specPie none).toOption.map RenderEffect.fileWritten =
      some false ∧
    (generate_graph tAB specPie none).toOption.map RenderEffect.saveAttempted =
      some false ∧
    (generate_graph tAB specPie none).toOption.map RenderEffect.draws =
      some [] ∧
    (generate_graph tAB specPie none).toOption.map RenderEffect.aborted =
      some true :=
  c4_unsupported_kind_aborts tAB specPie none "b" [] rfl (by decide)
    (by decide) (by decide) (by decide) (by decide) (by decide)

/-- Concrete table with columns `a`, `b`, `c` (one data row). -/
def tABC : Table :=
  ⟨[("a", [Scalar.num 1]), ("b", [Scalar.num 2]), ("c", [Scalar.num 3])]⟩

/-- A line chart over `x_column = a`, `y_columns = [b, c]`, with no
explicit axis labels. -/
def specLineBC : ChartSpec :=
  { kind := "line", x_column := "a", y_columns := ["b", "c"], title := "T",
    x_label := none, y_label := none, figure_size := none,
    output_file := "out/x.png" }

/-- C8: every successfully rendered (non-aborted) chart gets x-axis label
`x_label` if provided else `x_column`, and y-axis label `y_label` if
provided else the comma-and-space join of `y_columns`. -/
theorem c8_axis_label_defaults (df : Table) (g : ChartSpec)
    (sr : Option String)
    (hab : (generate_graph df g sr).toOption.map RenderEffect.aborted =
      some false) :
    (generate_graph df g sr).toOption.map RenderEffect.xlabelSet =
      some (some (g.x_label.getD g.x_column)) ∧
    (generate_graph df g sr).toOption.map RenderEffect.ylabelSet =
      some (some (g.y_label.getD (String.intercalate ", " g.y_columns))) := by
  cases hx : df.lookup g.x_column with
  | none => simp [generate_graph, hx, Except.toOption] at hab
  | some x =>
    cases hd : drawLoop df g.kind x g.y_columns with
    | error e => simp [generate_graph, hx, hd, Except.toOption] at hab
    | ok lo =>
      cases lo with
      | done ds => simp [generate_graph, hx, hd, Except.toOption]
      | abortedAt ds k => simp [generate_graph, hx, hd, Except.toOption] at hab

/-- C8 witness: at `y_columns = [b, c]` and no `y_label`, the y-axis
label is the literal string `b, c` (and the x-axis label defaults to the
x-column name). -/
theorem c8_witness :
    (generate_graph tABC specLineBC none).toOption.map RenderEffect.xlabelSet =
      some (some "a") ∧
    (generate_graph tABC specLineBC none).toOption.map RenderEffect.ylabelSet =
      some (some "b, c") :=
  c8_axis_label_defaults tABC specLineBC none (by decide)

/-- C9: with an empty `y_columns`, the kind dispatch is never reached:
whatever `kind` is — even an unsupported one — no warning is printed, no
series is drawn, the labels are set, the save step is attempted, the
surface is released, and when the save succeeds a file is written. -/
theorem c9_empty_y_columns_renders (df : Table) (g : ChartSpec)
    (sr : Option String) (hys : g.y_columns = [])
    (hx : df.hasCol g.x_column = true) :
    (generate_graph df g sr).toOption.map RenderEffect.warned = some none ∧
    (generate_graph df g sr).toOption.map RenderEffect.aborted = some false ∧
    (generate_graph df g sr).toOption.map RenderEffect.draws = some [] ∧
    (generate_graph df g sr).toOption.map RenderEffect.xlabelSet =
      some (some (g.x_label.getD g.x_column)) ∧
    (generate_graph df g sr).toOption.map RenderEffect.ylabelSet =
      some (some (g.y_label.getD "")) ∧
    (generate_graph df g sr).toOption.map RenderEffect.saveAttempted =
      some true ∧
    (generate_graph df g sr).toOption.map RenderEffect.closed = some true ∧
    (generate_graph df g sr).toOption.map RenderEffect.fileWritten =
      some sr.isNone := by
  have hxs : ∃ x, df.lookup g.x_column = some x := by
    cases hcc : df.lookup g.x_column
    · rw [Table.hasCol, hcc] at hx
      simp at hx
    · exact ⟨_, rfl⟩
  rcases hxs with ⟨x, hxx⟩
  refine ⟨?_, ?_, ?_, ?_, ?_, ?_, ?_, ?_⟩ <;>
    simp [generate_graph, hxx, hys, drawLoop, Except.toOption,
      String.intercalate]

/-- A `specPie` variant with an empty `y_columns` list. -/
def specPieNoY : ChartSpec :=
  { kind := "pie", x_column := "a", y_columns := [], title := "T",
    x_label := none, y_label := none, figure_size := none,
    output_file := "out/x.png" }

/-- C9 witness: the unsupported-kind spec with empty `y_columns` still
writes its file when the save succeeds. -/
theorem c9_witness :
    (generate_graph tAB specPieNoY none).toOption.map RenderEffect.warned =
      some none ∧
    (generate_graph tAB specPieNoY none).toOption.map RenderEffect.aborted =
      some false ∧
    (generate_graph tAB specPieNoY none).toOption.map RenderEffect.draws =
      some [] ∧
    (generate_graph tAB specPieNoY none).toOption.map RenderEffect.xlabelSet =
      some (some "a") ∧
    (generate_graph tAB specPieNoY none).toOption.map RenderEffect.ylabelSet =
      some (some "") ∧
    (generate_graph tAB specPieNoY none).toOption.map
      RenderEffect.saveAttempted = some true ∧
    (generate_graph tAB specPieNoY none).toOption.map RenderEffect.closed =
      some true ∧
    (generate_graph tAB specPieNoY none).toOption.map
      RenderEffect.fileWritten = some true :=
  c9_empty_y_columns_renders tAB specPieNoY none rfl (by decide)

/-- Taking a short enough prefix of an appended string only sees the left
operand. -/
theorem take_data_append (a b : String) (n : Nat) (h : n ≤ a.data.length) :
    (a ++ b).data.take n = a.data.take n := by
  rw [String.data_append, List.take_append_of_le_length h]

/-- C6: `load_dataframe` has exactly three failure modes — not-found,
empty, and generic parse error — each reported with its own message
(pairwise distinct for every path and error detail) and modelled process
termination, while a successful parse returns the whole table. -/
theorem c6_load_dataframe_failure_modes (p e : String) (t : Table) :
    load_dataframe p CsvOutcome.notFound =
      Except.error ("Error: Data file " ++ pyQuote ++ p ++ pyQuote ++
        " not found!") ∧
    load_dataframe p CsvOutcome.emptyData =
      Except.error ("Error: Data file " ++ pyQuote ++ p ++ pyQuote ++
        " is empty!") ∧
    load_dataframe p (CsvOutcome.otherError e) =
      Except.error ("Error reading data file " ++ pyQuote ++ p ++ pyQuote ++
        ": " ++ e) ∧
    ("Error: Data file " ++ pyQuote ++ p ++ pyQuote ++ " not found!") ≠
      ("Error: Data file " ++ pyQuote ++ p ++ pyQuote ++ " is empty!") ∧
    ("Error: Data file " ++ pyQuote ++ p ++ pyQuote ++ " not found!") ≠
      ("Error reading data file " ++ pyQuote ++ p ++ pyQuote ++ ": " ++ e) ∧
    ("Error: Data file " ++ pyQuote ++ p ++ pyQuote ++ " is empty!") ≠
      ("Error reading data file " ++ pyQuote ++ p ++ pyQuote ++ ": " ++ e) ∧
    load_dataframe p (CsvOutcome.parsed t) = Except.ok t := by
  refine ⟨rfl, rfl, rfl, ?_, ?_, ?_, rfl⟩
  · intro h
    have hl := congrArg String.length h
    simp only [String.length_append] at hl
    have h1 : (" not found!").length = 11 := by decide
    have h2 : (" is empty!").length = 10 := by decide
    omega
  · intro h
    simp only [String.append_assoc] at h
    have h6 := congrArg (fun s => s.data.take 6) h
    simp only at h6
    rw [take_data_append _ _ 6 (by decide),
      take_data_append _ _ 6 (by decide)] at h6
    exact absurd h6 (by decide)
  · intro h
    simp only [String.append_assoc] at h
    have h6 := congrArg (fun s => s.data.take 6) h
    simp only at h6
    rw [take_data_append _ _ 6 (by decide),
      take_data_append _ _ 6 (by decide)] at h6
    exact absurd h6 (by decide)

/-- C6 witness: the three failure modes at a concrete path and error
detail. -/
theorem c6_witness :
    load_dataframe "data/examples.csv" CsvOutcome.notFound =
      Except.error ("Error: Data file " ++ pyQuote ++ "data/examples.csv" ++
        pyQuote ++ " not found!") ∧
    load_dataframe "data/examples.csv" CsvOutcome.emptyData =
      Except.error ("Error: Data file " ++ pyQuote ++ "data/examples.csv" ++
        pyQuote ++ " is empty!") ∧
    load_dataframe "data/examples.csv" (CsvOutcome.otherError "bad line") =
      Except.error ("Error reading data file " ++ pyQuote ++
        "data/examples.csv" ++ pyQuote ++ ": " ++ "bad line") ∧
    ("Error: Data file " ++ pyQuote ++ "data/examples.csv" ++ pyQuote ++
        " not found!") ≠
      ("Error: Data file " ++ pyQuote ++ "data/examples.csv" ++ pyQuote ++
        " is empty!") ∧
    ("Error: Data file " ++ pyQuote ++ "data/examples.csv" ++ pyQuote ++
        " not found!") ≠
      ("Error reading data file " ++ pyQuote ++ "data/examples.csv" ++
        pyQuote ++ ": " ++ "bad line") ∧
    ("Error: Data file " ++ pyQuote ++ "data/examples.csv" ++ pyQuote ++
        " is empty!") ≠
      ("Error reading data file " ++ pyQuote ++ "data/examples.csv" ++
        pyQuote ++ ": " ++ "bad line") ∧
    load_dataframe "data/examples.csv" (CsvOutcome.parsed tAB) =
      Except.ok tAB :=
  c6_load_dataframe_failure_modes "data/examples.csv" "bad line" tAB

/-- C7: `load_config` reports a missing file with a message naming the
path and a malformed document with the parser detail, each as modelled
process termination (distinct messages), and never returns a document in
either failure case; a successful parse returns the whole document. -/
theorem c7_load_config_failure_modes (p e : String) (d : ConfigDoc) :
    load_config p YamlOutcome.notFound =
      Except.error ("Error: Config file " ++ pyQuote ++ p ++ pyQuote ++
        " not found!") ∧
    load_config p (YamlOutcome.yamlError e) =
      Except.error ("Error parsing config file: " ++ e) ∧
    ("Error: Config file " ++ pyQuote ++ p ++ pyQuote ++ " not found!") ≠
      ("Error parsing config file: " ++ e) ∧
    load_config p (YamlOutcome.parsed d) = Except.ok d := by
  refine ⟨rfl, rfl, ?_, rfl⟩
  intro h
  simp only [String.append_assoc] at h
  have h6 := congrArg (fun s => s.data.take 6) h
  simp only at h6
  rw [take_data_append _ _ 6 (by decide),
    take_data_append _ _ 6 (by decide)] at h6
  exact absurd h6 (by decide)

/-- C7 witness: the two failure modes at a concrete path and parser
detail. -/
theorem c7_witness :
    load_config "missing.yaml" YamlOutcome.notFound =
      Except.error ("Error: Config file " ++ pyQuote ++ "missing.yaml" ++
        pyQuote ++ " not found!") ∧
    load_config "missing.yaml" (YamlOutcome.yamlError "bad indent") =
      Except.error ("Error parsing config file: " ++ "bad indent") ∧
    ("Error: Config file " ++ pyQuote ++ "missing.yaml" ++ pyQuote ++
        " not found!") ≠
      ("Error parsing config file: " ++ "bad indent") ∧
    load_config "missing.yaml"
        (YamlOutcome.parsed (ConfigDoc.mapping (some [specLineA]))) =
      Except.ok (ConfigDoc.mapping (some [specLineA])) :=
  c7_load_config_failure_modes "missing.yaml" "bad indent"
    (ConfigDoc.mapping (some [specLineA]))

/-- C10: a config file parsing to the empty document makes `load_config`
succeed with `None` — no validation that the result is a mapping or has
the `graphs` key — and the run then dies later with an unhandled
subscript `TypeError` at `config['graphs']` in `main` (exit status of
the explicit `sys.exit(1)` path is never taken), in both the default and
the `--input` modes. -/
theorem c10_null_config_crashes_in_main (cpath ipath : String) (env : Env)
    (t t2 : Table)
    (hc : env.configOutcome = YamlOutcome.parsed ConfigDoc.null)
    (h1 : env.csv "data/examples.csv" = CsvOutcome.parsed t)
    (h2 : env.csv ipath = CsvOutcome.parsed t2) :
    load_config cpath env.configOutcome = Except.ok ConfigDoc.null ∧
    main_run none cpath env =
      RunResult.crashed "TypeError: NoneType object is not subscriptable" [] ∧
    main_run (some ipath) cpath env =
      RunResult.crashed "TypeError: NoneType object is not subscriptable" [] ∧
    (main_run none cpath env).exitStatus = none := by
  refine ⟨?_, ?_, ?_, ?_⟩
  · rw [hc]
    rfl
  · simp [main_run, load_config, hc, load_dataframe, h1,
      ConfigDoc.subscriptGraphs]
  · simp [main_run, load_config, hc, load_dataframe, h2,
      ConfigDoc.subscriptGraphs]
  · simp [main_run, load_config, hc, load_dataframe, h1,
      ConfigDoc.subscriptGraphs, RunResult.exitStatus]

/-- C10 witness: the null-config behavior at the concrete environment
`envNullConfig`. -/
theorem c10_witness :
    load_config "config.yaml" envNullConfig.configOutcome =
      Except.ok ConfigDoc.null ∧
    main_run none "config.yaml" envNullConfig =
      RunResult.crashed "TypeError: NoneType object is not subscriptable" [] ∧
    main_run (some "in.csv") "config.yaml" envNullConfig =
      RunResult.crashed "TypeError: NoneType object is not subscriptable" [] ∧
    (main_run none "config.yaml" envNullConfig).exitStatus = none :=
  c10_null_config_crashes_in_main "config.yaml" "in.csv" envNullConfig
    tAB tAB rfl rfl rfl

/-- Counting a spec distributes over list append. -/
theorem specCount_append (s : ChartSpec) (l1 l2 : List ChartSpec) :
    specCount s (l1 ++ l2) = specCount s l1 + specCount s l2 := by
  simp [specCount, List.countP_append]

/-- C1 counterexample: in default mode, a spec whose `x_column` is in
both default datasets' column sets is passed to `generate_graph` twice
over the run — once per dataset — not exactly once as claimed. -/
theorem c1_counterexample :
    envBothHaveA.configOutcome =
      YamlOutcome.parsed (ConfigDoc.mapping (some [specLineA])) ∧
    envBothHaveA.csv "data/examples.csv" = CsvOutcome.parsed tAB ∧
    envBothHaveA.csv "data/fibonacci.csv" = CsvOutcome.parsed tAB ∧
    tAB.hasCol specLineA.x_column = true ∧
    specCount specLineA
      ((main_run none "config.yaml" envBothHaveA).calls.map CallRecord.spec) =
      2 :=
  ⟨rfl, rfl, rfl, rfl, rfl⟩

/-- C1 (amended): in a default-mode run that completes normally, each
spec is passed to `generate_graph` once per default dataset whose column
set contains its `x_column` (per occurrence in the config); a spec whose
x-column is in both datasets is therefore rendered twice, not at most
once. -/
theorem c1_render_count (cpath : String) (env : Env) (gs : List ChartSpec)
    (t1 t2 : Table) (s : ChartSpec) (calls : List CallRecord)
    (hc : env.configOutcome = YamlOutcome.parsed (ConfigDoc.mapping (some gs)))
    (h1 : env.csv "data/examples.csv" = CsvOutcome.parsed t1)
    (h2 : env.csv "data/fibonacci.csv" = CsvOutcome.parsed t2)
    (hrun : main_run none cpath env = RunResult.completed calls) :
    specCount s (calls.map CallRecord.spec) =
      (if t1.hasCol s.x_column = true then specCount s gs else 0) +
      (if t2.hasCol s.x_column = true then specCount s gs else 0) := by
  simp only [main_run, load_config, hc, load_dataframe, h1, h2,
    ConfigDoc.subscriptGraphs] at hrun
  cases hr1 : renderAll env.saveResult t1
      (gs.filter (fun g => t1.hasCol g.x_column)) with
  | mk c1 e1 =>
    rw [hr1] at hrun
    cases e1 with
    | some err => simp at hrun
    | none =>
      cases hr2 : renderAll env.saveResult t2
          (gs.filter (fun g => t2.hasCol g.x_column)) with
      | mk c2 e2 =>
        rw [hr2] at hrun
        cases e2 with
        | some err => simp at hrun
        | none =>
          simp only [RunResult.completed.injEq] at hrun
          have hs1 := renderAll_fst_specs env.saveResult t1
            (gs.filter (fun g => t1.hasCol g.x_column)) (by rw [hr1])
          have hs2 := renderAll_fst_specs env.saveResult t2
            (gs.filter (fun g => t2.hasCol g.x_column)) (by rw [hr2])
          rw [hr1] at hs1
          rw [hr2] at hs2
          rw [← hrun, List.map_append, hs1, hs2, specCount_append,
            specCount_filter, specCount_filter]

/-- C1 witness: the render count at the concrete environment where both
default datasets have the spec's x-column. -/
theorem c1_witness :
    specCount specLineA
      ((main_run none "config.yaml" envBothHaveA).calls.map CallRecord.spec) =
      (if tAB.hasCol specLineA.x_column = true
        then specCount specLineA [specLineA] else 0) +
      (if tAB.hasCol specLineA.x_column = true
        then specCount specLineA [specLineA] else 0) :=
  c1_render_count "config.yaml" envBothHaveA [specLineA] tAB tAB specLineA
    ((main_run none "config.yaml" envBothHaveA).calls) rfl rfl rfl rfl

/-- A call completed by a loop over the x-column-filtered specs always
has its x-column present in its table. -/
theorem renderAll_hasCol_of_mem (save : String → Option String) (df : Table)
    (gs : List ChartSpec) (cr : CallRecord)
    (h : cr ∈ (renderAll save df
      (gs.filter (fun g => df.hasCol g.x_column))).1) :
    cr.df.hasCol cr.spec.x_column = true := by
  rcases renderAll_fst_mem save df _ cr h with ⟨hdf, hspec⟩
  rw [hdf]
  exact (List.mem_filter.mp hspec).2

/-- The effect record of the successful `specLineA` render over `tAB`. -/
def effLineAB : RenderEffect :=
  { cleared := true, newFigure := none,
    draws := [DrawCmd.line [Scalar.num 1, Scalar.num 2]
      [Scalar.num 3, Scalar.num 4] "b"],
    warned := none, aborted := false, titleSet := some "T",
    xlabelSet := some "a", ylabelSet := some "b", legendOn := true,
    gridOn := true, tightLayoutDone := true, madeDir := some "out",
    saveAttempted := true, fileWritten := true, saveErrorMsg := none,
    closed := true }

/-- C2 counterexample: `main` selects a spec by checking `x_column`
alone; with `y_columns = [b]` absent from the table, `generate_graph` is
still invoked and its column lookup fails — the run crashes with the
uncaught `KeyError`. -/
theorem c2_counterexample :
    tA.hasCol specLineA.x_column = true ∧
    specLineA.y_columns = ["b"] ∧
    tA.hasCol "b" = false ∧
    main_run none "config.yaml" envMissingY =
      RunResult.crashed ("KeyError: " ++ pyQuote ++ "b" ++ pyQuote) [] :=
  ⟨rfl, rfl, rfl, rfl⟩

/-- C2 (amended): before every invocation of `generate_graph` the caller
has checked only that the spec's `x_column` names a column of the table
being plotted; `y_columns` entries are not checked, so their lookups
inside `generate_graph` can still fail. -/
theorem c2_caller_checks_only_x (input : Option String) (cpath : String)
    (env : Env) (cr : CallRecord)
    (h : cr ∈ (main_run input cpath env).calls) :
    cr.df.hasCol cr.spec.x_column = true := by
  cases hc : env.configOutcome with
  | notFound => simp [main_run, load_config, hc, RunResult.calls] at h
  | yamlError e => simp [main_run, load_config, hc, RunResult.calls] at h
  | parsed d =>
    cases input with
    | some p =>
      cases hcsv : env.csv p with
      | notFound =>
        simp [main_run, load_config, hc, load_dataframe, hcsv,
          RunResult.calls] at h
      | emptyData =>
        simp [main_run, load_config, hc, load_dataframe, hcsv,
          RunResult.calls] at h
      | otherError e =>
        simp [main_run, load_config, hc, load_dataframe, hcsv,
          RunResult.calls] at h
      | parsed t =>
        cases d with
        | null =>
          simp [main_run, load_config, hc, load_dataframe, hcsv,
            ConfigDoc.subscriptGraphs, RunResult.calls] at h
        | mapping og =>
          cases og with
          | none =>
            simp [main_run, load_config, hc, load_dataframe, hcsv,
              ConfigDoc.subscriptGraphs, RunResult.calls] at h
          | some gs =>
            simp only [main_run, load_config, hc, load_dataframe, hcsv,
              ConfigDoc.subscriptGraphs] at h
            cases hr : renderAll env.saveResult t
                (gs.filter (fun g => t.hasCol g.x_column)) with
            | mk c1 e1 =>
              rw [hr] at h
              have hmem : cr ∈ c1 := by
                cases e1 <;> simpa [RunResult.calls] using h
              exact renderAll_hasCol_of_mem env.saveResult t gs cr
                (by rw [hr]; exact hmem)
    | none =>
      cases hcsv1 : env.csv "data/examples.csv" with
      | notFound =>
        simp [main_run, load_config, hc, load_dataframe, hcsv1,
          RunResult.calls] at h
      | emptyData =>
        simp [main_run, load_config, hc, load_dataframe, hcsv1,
          RunResult.calls] at h
      | otherError e =>
        simp [main_run, load_config, hc, load_dataframe, hcsv1,
          RunResult.calls] at h
      | parsed t1 =>
        cases d with
        | null =>
          simp [main_run, load_config, hc, load_dataframe, hcsv1,
            ConfigDoc.subscriptGraphs, RunResult.calls] at h
        | mapping og =>
          cases og with
          | none =>
            simp [main_run, load_config, hc, load_dataframe, hcsv1,
              ConfigDoc.subscriptGraphs, RunResult.calls] at h
          | some gs =>
            simp only [main_run, load_config, hc, load_dataframe, hcsv1,
              ConfigDoc.subscriptGraphs] at h
            cases hr1 : renderAll env.saveResult t1
                (gs.filter (fun g => t1.hasCol g.x_column)) with
            | mk c1 e1 =>
              rw [hr1] at h
              cases e1 with
              | some err =>
                have hmem : cr ∈ c1 := by simpa [RunResult.calls] using h
                exact renderAll_hasCol_of_mem env.saveResult t1 gs cr
                  (by rw [hr1]; exact hmem)
              | none =>
                simp only at h
                cases hcsv2 : env.csv "data/fibonacci.csv" with
                | notFound =>
                  rw [hcsv2] at h
                  simp only [load_dataframe, RunResult.calls] at h
                  exact renderAll_hasCol_of_mem env.saveResult t1 gs cr
                    (by rw [hr1]; exact h)
                | emptyData =>
                  rw [hcsv2] at h
                  simp only [load_dataframe, RunResult.calls] at h
                  exact renderAll_hasCol_of_mem env.saveResult t1 gs cr
                    (by rw [hr1]; exact h)
                | otherError e =>
                  rw [hcsv2] at h
                  simp only [load_dataframe, RunResult.calls] at h
                  exact renderAll_hasCol_of_mem env.saveResult t1 gs cr
                    (by rw [hr1]; exact h)
                | parsed t2 =>
                  rw [hcsv2] at h
                  simp only [load_dataframe] at h
                  cases hr2 : renderAll env.saveResult t2
                      (gs.filter (fun g => t2.hasCol g.x_column)) with
                  | mk c2 e2 =>
                    rw [hr2] at h
                    have hmem : cr ∈ c1 ++ c2 := by
                      cases e2 <;> simpa [RunResult.calls] using h
                    rcases List.mem_append.mp hmem with hm | hm
                    · exact renderAll_hasCol_of_mem env.saveResult t1 gs cr
                        (by rw [hr1]; exact hm)
                    · exact renderAll_hasCol_of_mem env.saveResult t2 gs cr
                        (by rw [hr2]; exact hm)

/-- C2 witness: the checked-x-column property at the single call of the
concrete default-mode run. -/
theorem c2_witness : tAB.hasCol specLineA.x_column = true :=
  c2_caller_checks_only_x none "config.yaml" envBothHaveA
    ⟨tAB, specLineA, effLineAB⟩
    (by
      have hcalls : (main_run none "config.yaml" envBothHaveA).calls =
          [⟨tAB, specLineA, effLineAB⟩, ⟨tAB, specLineA, effLineAB⟩] := rfl
      rw [hcalls]
      exact List.mem_cons_self _ _)

/-- The exit status of a run is unchanged by replacing every savefig
outcome: per-chart save failures are caught inside `generate_graph` and
never reach the exit-code logic. -/
theorem main_run_withSave_status (input : Option String) (cpath : String)
    (env : Env) (f : String → Option String) :
    (main_run input cpath (env.withSave f)).exitStatus =
      (main_run input cpath env).exitStatus := by
  cases hc : env.configOutcome with
  | notFound => simp [main_run, load_config, Env.withSave, hc]
  | yamlError e => simp [main_run, load_config, Env.withSave, hc]
  | parsed d =>
    cases input with
    | some p =>
      cases hcsv : env.csv p with
      | notFound =>
        simp [main_run, load_config, load_dataframe, Env.withSave, hc, hcsv]
      | emptyData =>
        simp [main_run, load_config, load_dataframe, Env.withSave, hc, hcsv]
      | otherError e =>
        simp [main_run, load_config, load_dataframe, Env.withSave, hc, hcsv]
      | parsed t =>
        cases hg : d.subscriptGraphs with
        | error e =>
          simp [main_run, load_config, load_dataframe, Env.withSave, hc,
            hcsv, hg]
        | ok gs =>
          have hsnd := renderAll_snd_save f env.saveResult t
            (gs.filter (fun g => t.hasCol g.x_column))
          simp only [main_run, load_config, load_dataframe, Env.withSave,
            hc, hcsv, hg]
          cases hr1 : renderAll f t
              (gs.filter (fun g => t.hasCol g.x_column)) with
          | mk c1 e1 =>
            cases hr2 : renderAll env.saveResult t
                (gs.filter (fun g => t.hasCol g.x_column)) with
            | mk c2 e2 =>
              rw [hr1, hr2] at hsnd
              simp only at hsnd
              subst hsnd
              cases e1 <;> simp [RunResult.exitStatus]
    | none =>
      cases hcsv1 : env.csv "data/examples.csv" with
      | notFound =>
        simp [main_run, load_config, load_dataframe, Env.withSave, hc, hcsv1]
      | emptyData =>
        simp [main_run, load_config, load_dataframe, Env.withSave, hc, hcsv1]
      | otherError e =>
        simp [main_run, load_config, load_dataframe, Env.withSave, hc, hcsv1]
      | parsed t1 =>
        cases hg : d.subscriptGraphs with
        | error e =>
          simp [main_run, load_config, load_dataframe, Env.withSave, hc,
            hcsv1, hg]
        | ok gs =>
          have hsnd1 := renderAll_snd_save f env.saveResult t1
            (gs.filter (fun g => t1.hasCol g.x_column))
          simp only [main_run, load_config, load_dataframe, Env.withSave,
            hc, hcsv1, hg]
          cases hr1 : renderAll f t1
              (gs.filter (fun g => t1.hasCol g.x_column)) with
          | mk c1 e1 =>
            cases hr2 : renderAll env.saveResult t1
                (gs.filter (fun g => t1.hasCol g.x_column)) with
            | mk c2 e2 =>
              rw [hr1, hr2] at hsnd1
              simp only at hsnd1
              subst hsnd1
              cases e1 with
              | some err => simp [RunResult.exitStatus]
              | none =>
                cases hcsv2 : env.csv "data/fibonacci.csv" with
                | notFound => simp [load_dataframe, hcsv2, RunResult.exitStatus]
                | emptyData => simp [load_dataframe, hcsv2, RunResult.exitStatus]
                | otherError e =>
                  simp [load_dataframe, hcsv2, RunResult.exitStatus]
                | parsed t2 =>
                  have hsnd2 := renderAll_snd_save f env.saveResult t2
                    (gs.filter (fun g => t2.hasCol g.x_column))
                  simp only [load_dataframe, hcsv2]
                  cases hr3 : renderAll f t2
                      (gs.filter (fun g => t2.hasCol g.x_column)) with
                  | mk c3 e3 =>
                    cases hr4 : renderAll env.saveResult t2
                        (gs.filter (fun g => t2.hasCol g.x_column)) with
                    | mk c4 e4 =>
                      rw [hr3, hr4] at hsnd2
                      simp only at hsnd2
                      subst hsnd2
                      cases e3 <;> simp [RunResult.exitStatus]

/-- A run that does not end in an unhandled exception exits 1 exactly
when some load step failed, and 0 otherwise. -/
theorem main_run_status_of_ne_none (input : Option String) (cpath : String)
    (env : Env) (hnc : (main_run input cpath env).exitStatus ≠ none) :
    (main_run input cpath env).exitStatus =
      some (if loadFailure input env = true then 1 else 0) := by
  cases hc : env.configOutcome with
  | notFound =>
    simp [main_run, load_config, hc, RunResult.exitStatus, loadFailure,
      YamlOutcome.failed]
  | yamlError e =>
    simp [main_run, load_config, hc, RunResult.exitStatus, loadFailure,
      YamlOutcome.failed]
  | parsed d =>
    cases input with
    | some p =>
      cases hcsv : env.csv p with
      | notFound =>
        simp [main_run, load_config, load_dataframe, hc, hcsv,
          RunResult.exitStatus, loadFailure, YamlOutcome.failed,
          CsvOutcome.failed]
      | emptyData =>
        simp [main_run, load_config, load_dataframe, hc, hcsv,
          RunResult.exitStatus, loadFailure, YamlOutcome.failed,
          CsvOutcome.failed]
      | otherError e =>
        simp [main_run, load_config, load_dataframe, hc, hcsv,
          RunResult.exitStatus, loadFailure, YamlOutcome.failed,
          CsvOutcome.failed]
      | parsed t =>
        cases hg : d.subscriptGraphs with
        | error e =>
          exfalso
          apply hnc
          simp [main_run, load_config, load_dataframe, hc, hcsv, hg,
            RunResult.exitStatus]
        | ok gs =>
          cases hr : renderAll env.saveResult t
              (gs.filter (fun g => t.hasCol g.x_column)) with
          | mk c1 e1 =>
            cases e1 with
            | some err =>
              exfalso
              apply hnc
              simp [main_run, load_config, load_dataframe, hc, hcsv, hg, hr,
                RunResult.exitStatus]
            | none =>
              simp [main_run, load_config, load_dataframe, hc, hcsv, hg, hr,
                RunResult.exitStatus, loadFailure, YamlOutcome.failed,
                CsvOutcome.failed]
    | none =>
      cases hcsv1 : env.csv "data/examples.csv" with
      | notFound =>
        simp [main_run, load_config, load_dataframe, hc, hcsv1,
          RunResult.exitStatus, loadFailure, YamlOutcome.failed,
          CsvOutcome.failed]
      | emptyData =>
        simp [main_run, load_config, load_dataframe, hc, hcsv1,
          RunResult.exitStatus, loadFailure, YamlOutcome.failed,
          CsvOutcome.failed]
      | otherError e =>
        simp [main_run, load_config, load_dataframe, hc, hcsv1,
          RunResult.exitStatus, loadFailure, YamlOutcome.failed,
          CsvOutcome.failed]
      | parsed t1 =>
        cases hg : d.subscriptGraphs with
        | error e =>
          exfalso
          apply hnc
          simp [main_run, load_config, load_dataframe, hc, hcsv1, hg,
            RunResult.exitStatus]
        | ok gs =>
          cases hr1 : renderAll env.saveResult t1
              (gs.filter (fun g => t1.hasCol g.x_column)) with
          | mk c1 e1 =>
            cases e1 with
            | some err =>
              exfalso
              apply hnc
              simp [main_run, load_config, load_dataframe, hc, hcsv1, hg, hr1,
                RunResult.exitStatus]
            | none =>
              cases hcsv2 : env.csv "data/fibonacci.csv" with
              | notFound =>
                simp [main_run, load_config, load_dataframe, hc, hcsv1, hg,
                  hr1, hcsv2, RunResult.exitStatus, loadFailure,
                  YamlOutcome.failed, CsvOutcome.failed]
              | emptyData =>
                simp [main_run, load_config, load_dataframe, hc, hcsv1, hg,
                  hr1, hcsv2, RunResult.exitStatus, loadFailure,
                  YamlOutcome.failed, CsvOutcome.failed]
              | otherError e =>
                simp [main_run, load_config, load_dataframe, hc, hcsv1, hg,
                  hr1, hcsv2, RunResult.exitStatus, loadFailure,
                  YamlOutcome.failed, CsvOutcome.failed]
              | parsed t2 =>
                cases hr2 : renderAll env.saveResult t2
                    (gs.filter (fun g => t2.hasCol g.x_column)) with
                | mk c2 e2 =>
                  cases e2 with
                  | some err =>
                    exfalso
                    apply hnc
                    simp [main_run, load_config, load_dataframe, hc, hcsv1,
                      hg, hr1, hcsv2, hr2, RunResult.exitStatus]
                  | none =>
                    simp [main_run, load_config, load_dataframe, hc, hcsv1,
                      hg, hr1, hcsv2, hr2, RunResult.exitStatus, loadFailure,
                      YamlOutcome.failed, CsvOutcome.failed]

/-- C5: for runs that do not die of an unhandled exception, the exit
status is unchanged by any change to the per-chart savefig outcomes, is
1 exactly when the config load or a dataset load fails, and is 0 exactly
when no load fails — so unsupported kinds and isolated save failures
leave a status of 0. -/
theorem c5_exit_codes (input : Option String) (cpath : String) (env : Env)
    (f : String → Option String)
    (hnc : (main_run input cpath env).exitStatus ≠ none) :
    (main_run input cpath (env.withSave f)).exitStatus =
      (main_run input cpath env).exitStatus ∧
    ((main_run input cpath env).exitStatus = some 1 ↔
      loadFailure input env = true) ∧
    ((main_run input cpath env).exitStatus = some 0 ↔
      loadFailure input env = false) := by
  have hst := main_run_status_of_ne_none input cpath env hnc
  refine ⟨main_run_withSave_status input cpath env f, ?_, ?_⟩
  · rw [hst]
    by_cases hl : loadFailure input env = true <;> simp [hl]
  · rw [hst]
    by_cases hl : loadFailure input env = true <;> simp [hl]

/-- C5 witness: at the concrete environment, making every save fail does
not change the exit status, which is 0 because no load fails. -/
theorem c5_witness :
    (main_run none "config.yaml"
        (envBothHaveA.withSave (fun _ => some "disk full"))).exitStatus =
      (main_run none "config.yaml" envBothHaveA).exitStatus ∧
    ((main_run none "config.yaml" envBothHaveA).exitStatus = some 1 ↔
      loadFailure none envBothHaveA = true) ∧
    ((main_run none "config.yaml" envBothHaveA).exitStatus = some 0 ↔
      loadFailure none envBothHaveA = false) :=
  c5_exit_codes none "config.yaml" envBothHaveA (fun _ => some "disk full")
    (by decide)
